import Mathlib

/-!
# Verification of the `ansible_docker_ci` image connection plugin

A shallow embedding of `src/ansible_docker_ci/image/connection/plugin.py`.

The plugin implements an Ansible connection backed by temporary docker
containers:

* `Connection.exec_command` runs a shell command inside the container,
* `Connection.put_file` / `Connection.fetch_file` transfer single files via
  tar archives,
* `Connection.container` (a cached property) resolves the (playbook pid,
  hostname) pair to a labeled container, creating one on first use,
* `StrategyBaseExtension.cleanup` force-removes every container labeled
  with the playbook pid,
* `Connection.close` only clears the `_connected` flag.

The docker runtime is modelled explicitly: the container filesystem as a map
from path to the list of tar entries `get_archive` would return for that
path, the container inventory as a list of labeled containers, and the exec
backend as the triple of responses (`exec_create` id, demultiplexed
stdout/stderr, `exec_inspect` exit code).  Python exceptions are modelled by
an error type with one constructor per exception class the plugin raises.
-/

namespace AnsibleDockerCI

/-- Errors the plugin can raise.  `connectionFailure` is
`AnsibleConnectionFailure`, `fileNotFound` is `AnsibleFileNotFound`, and
`valueError` stands for the uncaught Python `ValueError` that
`user_id, group_id = map(int, stdout.splitlines())` raises on unparseable
exec output. -/
inductive PyError where
  | connectionFailure (msg : String)
  | fileNotFound (path : String)
  | valueError
deriving DecidableEq, Repr

/-- Calls the plugin makes against the docker runtime, recorded as a trace so
that "never contacts the runtime" claims are statable. -/
inductive RuntimeCall where
  | execCreate (cmd : String)
  | execStart (execId : String)
  | execInspect (execId : String)
  | putArchive (dir : String)
  | getArchive (path : String)
deriving DecidableEq, Repr

/-! ## Path helpers (`os.path.split`, `os.path.join` for POSIX) -/

/-- Python `str.startswith`, computed over the character list. -/
def startsWith (s pre : String) : Bool :=
  pre.data.isPrefixOf s.data

/-- Python `str.endswith`, computed over the character list. -/
def endsWith (s suf : String) : Bool :=
  suf.data.reverse.isPrefixOf s.data.reverse

/-- `os.path.split` (posixpath): split at the last `/`; the head keeps no
trailing slashes unless it consists of slashes only. -/
def splitPath (p : String) : String × String :=
  let rev := p.data.reverse
  let tailRev := rev.takeWhile (fun c => c ≠ '/')
  let headRev := rev.dropWhile (fun c => c ≠ '/')
  let head :=
    if headRev ≠ [] ∧ headRev.any (fun c => c ≠ '/') then
      headRev.dropWhile (fun c => c = '/')
    else headRev
  (String.mk head.reverse, String.mk tailRev.reverse)

/-- `os.path.join` (posixpath) restricted to two components: an absolute
second component discards the first; otherwise a separator is inserted
unless the first component is empty or already ends in one. -/
def joinPath (a b : String) : String :=
  if startsWith b "/" then b
  else if a = "" ∨ endsWith a "/" then a ++ b
  else a ++ "/" ++ b

/-- Helper for `splitlines`: walk the character list accumulating the
current line (reversed); a newline emits the line, and trailing characters
without a final newline still form a line. -/
def splitlinesAux : List Char → List Char → List String
  | [], acc => if acc = [] then [] else [String.mk acc.reverse]
  | c :: rest, acc =>
    if c = '\n' then String.mk acc.reverse :: splitlinesAux rest []
    else splitlinesAux rest (c :: acc)

/-- Python `str.splitlines` restricted to `\n` separators (the only ones
`id -u && id -g` output contains): no trailing empty piece, and the empty
string has no lines. -/
def splitlines (s : String) : List String :=
  splitlinesAux s.data []

/-! ## Tar entries and the container filesystem -/

/-- The `tarfile` member types the plugin distinguishes (`issym()`,
`isfile()`); everything else (directories, devices, …) is `other`. -/
inductive TarKind where
  | file
  | symlink
  | other
deriving DecidableEq, Repr

/-- One tar archive member, as built by `tarfile.gettarinfo` and consumed by
`list(archive)` on fetch.  File contents are byte strings, modelled as
`String`. -/
structure TarEntry where
  name : String
  kind : TarKind
  content : String
  linkname : String
  mode : Nat
  uid : Nat
  gid : Nat
  uname : String
  gname : String
deriving DecidableEq, Repr

/-- The container side of the transfer protocol: for each path, the list of
tar members the runtime's `get_archive` returns for that path (`[]` when the
path holds nothing). -/
def ContainerFs : Type := String → List TarEntry

/-- A local file visible to `put_file`: its bytes and `stat` metadata as
`tarfile.gettarinfo` (with `dereference=True`) reads them. -/
structure LocalFile where
  content : String
  mode : Nat
  uid : Nat
  gid : Nat
  uname : String
  gname : String
deriving DecidableEq, Repr

/-- The local filesystem (`os.path.exists` + `open(in_path, "rb")`). -/
def LocalFs : Type := String → Option LocalFile

/-! ## Remote executor (`Connection.exec_command`) -/

/-- The runtime's responses to the exec API: the id `exec_create` hands
back, the demultiplexed `(stdout, stderr)` from `exec_start` (either stream
may be absent), and the `ExitCode` field of `exec_inspect` (absent on some
drivers). -/
structure ExecBackend where
  execCreateId : String
  execStdout : Option String
  execStderr : Option String
  inspectExitCode : Option Int
deriving DecidableEq, Repr

/-- `Connection.exec_command`: rejects supplementary stdin data outright,
otherwise creates an exec context for `sh -c cmd`, starts it demultiplexed,
and inspects it; `result.get("ExitCode") or 0` turns an absent exit code
into `0`, and absent streams into empty bytes.  Returns the result together
with the trace of runtime calls made. -/
def exec_command (be : ExecBackend) (cmd : String) (in_data : Option String) :
    Except PyError (Int × String × String) × List RuntimeCall :=
  if in_data ≠ none then
    (.error (.connectionFailure "in_data is not supported yet"), [])
  else
    let exitCode : Int :=
      match be.inspectExitCode with
      | none => 0
      | some n => if n = 0 then 0 else n
    (.ok (exitCode, be.execStdout.getD "", be.execStderr.getD ""),
      [.execCreate cmd, .execStart be.execCreateId, .execInspect be.execCreateId])

/-! ## File transfer protocol (`Connection.put_file`, `Connection.fetch_file`) -/

/-- Python `int` restricted to the non-empty decimal-digit strings the
`id` command prints; anything else raises `ValueError` (modelled as
`none`). -/
def parseDecimal (s : String) : Option Nat :=
  if s.data ≠ [] ∧ s.data.all (fun c => c.isDigit) then
    some (s.data.foldl (fun n c => 10 * n + (c.toNat - 48)) 0)
  else none

/-- Parse the stdout of `id -u && id -g` the way
`user_id, group_id = map(int, stdout.splitlines())` does: exactly two lines,
each a decimal integer; anything else raises `ValueError`. -/
def parseIdOutput (stdout : String) : Option (Nat × Nat) :=
  match splitlines stdout with
  | [a, b] =>
    match parseDecimal a, parseDecimal b with
    | some u, some g => some (u, g)
    | _, _ => none
  | _ => none

/-- The single-member tar archive `put_file` builds: `gettarinfo` on the
local file addressed to the leaf name, then ownership overwritten with the
discovered numeric ids, names cleared, and mode masked with `0o700`. -/
def putArchiveEntry (f : LocalFile) (arcname : String) (user_id group_id : Nat) :
    TarEntry :=
  { name := arcname
    kind := .file
    content := f.content
    linkname := ""
    mode := f.mode &&& 0o700
    uid := user_id
    gid := group_id
    uname := ""
    gname := "" }

/-- The runtime's `put_archive(container, path=dir, data)` extracting a
single-member archive: the member lands at `dir/<member name>`, and a later
`get_archive` of that path returns exactly that member. -/
def putArchiveFs (cfs : ContainerFs) (dir : String) (e : TarEntry) : ContainerFs :=
  fun p => if p = joinPath dir e.name then [e] else cfs p

/-- `Connection.put_file`: reject a relative remote path, then a missing
local file; discover uid/gid with `id -u && id -g` through
`exec_command` (a nonzero exit is a hard failure, unparseable output a
`ValueError`); build the single-member archive and hand it to
`put_archive`, whose `False` return is a hard failure.  Returns the updated
container filesystem and the trace of runtime calls. -/
def put_file (lfs : LocalFs) (be : ExecBackend) (cfs : ContainerFs)
    (putSuccessful : Bool) (in_path out_path : String) :
    Except PyError ContainerFs × List RuntimeCall :=
  if ¬ startsWith out_path "/" then
    (.error (.connectionFailure "Only absolute paths are available"), [])
  else
    match lfs in_path with
    | none => (.error (.fileNotFound in_path), [])
    | some f =>
      match exec_command be "id -u && id -g" none with
      | (.error e, calls) => (.error e, calls)
      | (.ok (exit_code, id_stdout, id_stderr), calls) =>
        if exit_code ≠ 0 then
          (.error (.connectionFailure ("Could not obtain uid/gid: " ++ id_stderr)), calls)
        else
          match parseIdOutput id_stdout with
          | none => (.error .valueError, calls)
          | some (user_id, group_id) =>
            let out_dir := (splitPath out_path).1
            let out_file := (splitPath out_path).2
            let entry := putArchiveEntry f out_file user_id group_id
            if putSuccessful then
              (.ok (putArchiveFs cfs out_dir entry), calls ++ [.putArchive out_dir])
            else
              (.error (.connectionFailure ("Unknown error while sending file " ++ out_path)),
                calls ++ [.putArchive out_dir])

/-- The member classification `fetch_file` performs on the decoded archive:
`list(archive)` must hold exactly one member; a symlink member yields its
link target, a regular file its content, and any other kind (or a wrong
member count) is an `AnsibleConnectionFailure`. -/
inductive EntryDecision where
  | file (content : String)
  | symlink (linkname : String)
deriving DecidableEq, Repr

/-- Decode the single expected member of a fetched archive (lines 193–204 of
the plugin): `len(members) != 1` fails, `issym()` continues the symlink
walk, a member that is neither symlink nor regular file fails. -/
def decodeSingleEntry (in_path : String) (members : List TarEntry) :
    Except PyError EntryDecision :=
  if members.length ≠ 1 then
    .error (.connectionFailure ("Bad members length: " ++ toString members.length))
  else
    match members with
    | [] => .error (.connectionFailure ("Bad members length: " ++ toString members.length))
    | member :: _ =>
      if member.kind = .symlink then .ok (.symlink member.linkname)
      else if member.kind ≠ .file then
        .error (.connectionFailure ("Bad member: " ++ in_path))
      else .ok (.file member.content)

/-- The `while True` symlink-chasing loop of `fetch_file`, with the visited
set `known_in_paths` made explicit and recursion fuelled (`none` = the loop
would still be running after `fuel` iterations).  Each iteration fails on a
revisited path, otherwise records the path, fetches its archive, decodes the
single member, and either follows a symlink (target joined onto the
directory of the current path) or returns the file bytes written to
`out_path`. -/
def fetch_file_loop (cfs : ContainerFs) :
    Nat → String → List String → Option (Except PyError String)
  | 0, _, _ => none
  | fuel + 1, in_path, known_in_paths =>
    if in_path ∈ known_in_paths then
      some (.error (.connectionFailure ("Found infinite symbolic link loop: " ++ in_path)))
    else
      match decodeSingleEntry in_path (cfs in_path) with
      | .error e => some (.error e)
      | .ok (.symlink linkname) =>
        fetch_file_loop cfs fuel (joinPath (splitPath in_path).1 linkname)
          (in_path :: known_in_paths)
      | .ok (.file content) => some (.ok content)

/-- `Connection.fetch_file`: reject a relative local destination, then run
the symlink-chasing loop seeded with an empty visited set.  A successful
result is the byte content written to the local destination. -/
def fetch_file (cfs : ContainerFs) (fuel : Nat) (in_path out_path : String) :
    Option (Except PyError String) :=
  if ¬ startsWith out_path "/" then
    some (.error (.connectionFailure "Only absolute paths are available"))
  else
    fetch_file_loop cfs fuel in_path []

/-! ## Container binding and run cleanup -/

/-- `Connection._CONTAINER_PID_LABEL`. -/
def CONTAINER_PID_LABEL : String :=
  "ansible.docker.image.connection.temp_container.parent.pid"

/-- `Connection._CONTAINER_HOSTNAME_LABEL`. -/
def CONTAINER_HOSTNAME_LABEL : String :=
  "ansible.docker.image.connection.temp_container.host.name"

/-- A container known to the docker runtime: its id, its label set, and the
image it runs. -/
structure DContainer where
  id : String
  labels : List (String × String)
  image : String
deriving DecidableEq, Repr

/-- `Connection.list_matching_containers`: filter the runtime's container
list by the pid label, and additionally by the hostname label when a
hostname is given.  Order of the runtime list is preserved. -/
def list_matching_containers (state : List DContainer) (pid : String)
    (hostname : Option String) : List DContainer :=
  let labels :=
    match hostname with
    | none => [(CONTAINER_PID_LABEL, pid)]
    | some h => [(CONTAINER_PID_LABEL, pid), (CONTAINER_HOSTNAME_LABEL, h)]
  state.filter (fun c => labels.all (fun l => c.labels.contains l))

/-- The runtime's `containers.run(image, command, remove=True, detach=True,
labels=…)`: a fresh detached container with the given labels joins the
inventory (the idle command, auto-remove and detach flags do not affect the
listed state). -/
def containers_run (state : List DContainer) (image : String)
    (labels : List (String × String)) (freshId : String) :
    DContainer × List DContainer :=
  let c : DContainer := { id := freshId, labels := labels, image := image }
  (c, state ++ [c])

/-- The `Connection.container` cached property: list containers labeled with
the playbook pid and the hostname; take the first when one exists, otherwise
create a fresh labeled container.  Returns the resolved container and the
runtime inventory afterwards. -/
def container_resolve (state : List DContainer) (pid hostname image freshId : String) :
    DContainer × List DContainer :=
  match list_matching_containers state pid (some hostname) with
  | c :: _ => (c, state)
  | [] =>
    containers_run state image
      [(CONTAINER_PID_LABEL, pid), (CONTAINER_HOSTNAME_LABEL, hostname)] freshId

/-- The loop body of `StrategyBaseExtension.cleanup`: iterate over the
containers in order calling `container.remove(force=True)`; an exception
raised by one removal propagates out of the `for` statement.  Returns the
ids removed before the stop and the propagated error, if any. -/
def cleanupLoop (removeResult : String → Except String Unit) :
    List DContainer → List String × Option String
  | [] => ([], none)
  | c :: rest =>
    match removeResult c.id with
    | .error e => ([], some e)
    | .ok _ =>
      let r := cleanupLoop removeResult rest
      (c.id :: r.1, r.2)

/-- `StrategyBaseExtension.cleanup`: list every container labeled with the
current pid (no hostname filter) and force-remove each. -/
def cleanup (state : List DContainer) (removeResult : String → Except String Unit)
    (pid : String) : List String × Option String :=
  cleanupLoop removeResult (list_matching_containers state pid none)

/-! ## Connection lifecycle (`Connection.close`) -/

/-- The per-connection mutable state: the `_connected` flag from the base
class, the playbook pid bound in `__init__`, and the cached container
binding. -/
structure ConnectionState where
  connected : Bool
  playbook_pid : String
  container : Option String
deriving DecidableEq, Repr

/-- `Connection.close`: clear the `_connected` flag and nothing else — the
comment in the source says containers are stopped on strategy plugin
cleanup, not here.  The empty trace records that no runtime call is made. -/
def close (s : ConnectionState) : ConnectionState × List RuntimeCall :=
  ({ s with connected := false }, [])

/-! ## Concrete sample data used by witnesses and counterexamples -/

/-- A sample exec backend: a zero exit code and the stdout `id -u && id -g`
produces for root. -/
def sampleBackend : ExecBackend :=
  { execCreateId := "exec0", execStdout := some "0\n0\n", execStderr := none,
    inspectExitCode := some 0 }

/-- A sample regular-file tar member. -/
def sampleFileEntry : TarEntry :=
  { name := "x", kind := .file, content := "hello", linkname := "",
    mode := 0o600, uid := 0, gid := 0, uname := "", gname := "" }

/-- A sample symlink tar member pointing at `t`. -/
def sampleSymEntry : TarEntry :=
  { sampleFileEntry with kind := .symlink, linkname := "t", content := "" }

/-- A sample tar member that is neither a regular file nor a symlink. -/
def sampleOtherEntry : TarEntry :=
  { sampleFileEntry with kind := .other }

/-- A container filesystem whose `/a` holds a symlink whose target resolves
back to `/a` itself. -/
def exLoopFs : ContainerFs := fun p =>
  if p = "/a" then [{ sampleSymEntry with name := "a", linkname := "a" }] else []

/-- A container filesystem whose `/a/b` holds a symlink member targeting
the relative path `c`. -/
def exRelFs : ContainerFs := fun p =>
  if p = "/a/b" then [{ sampleSymEntry with name := "b", linkname := "c" }] else []

/-- A labeled container of the run with pid `7` on host `h1`. -/
def exContainer1 : DContainer :=
  { id := "c1", labels := [(CONTAINER_PID_LABEL, "7"), (CONTAINER_HOSTNAME_LABEL, "h1")],
    image := "node:alpine" }

/-- A labeled container of the run with pid `7` on host `h2`. -/
def exContainer2 : DContainer :=
  { id := "c2", labels := [(CONTAINER_PID_LABEL, "7"), (CONTAINER_HOSTNAME_LABEL, "h2")],
    image := "node:alpine" }

/-- A removal backend for which removing container `c1` raises. -/
def exRemove : String → Except String Unit := fun c =>
  if c = "c1" then .error "API error" else .ok ()

/-! ## Theorems -/

/-- **C3.** For every command string and every supplementary stdin payload,
`exec_command` fails with the bad-argument `AnsibleConnectionFailure` the
plugin raises for unsupported stdin, and the runtime-call trace is empty: no
exec context is created before the failure. -/
theorem exec_command_rejects_stdin_data (be : ExecBackend) (cmd data : String) :
    exec_command be cmd (some data) =
      (.error (.connectionFailure "in_data is not supported yet"), []) := by
  simp [exec_command]

/-- **C9.** When the exec-inspect result omits the exit code,
`exec_command` reports exit code `0`; when an exit code is present, exactly
that code is reported. -/
theorem exec_command_exit_code_policy (be : ExecBackend) (cmd : String) :
    (be.inspectExitCode = none →
      (exec_command be cmd none).1 =
        .ok (0, be.execStdout.getD "", be.execStderr.getD "")) ∧
    (∀ n : Int, be.inspectExitCode = some n →
      (exec_command be cmd none).1 =
        .ok (n, be.execStdout.getD "", be.execStderr.getD "")) := by
  constructor
  · intro h
    simp [exec_command, h]
  · intro n h
    by_cases hn : n = 0
    · subst hn
      simp [exec_command, h]
    · simp [exec_command, h, hn]

/-- Witness for C9 at two concrete backends: one omitting the exit code
(reported as `0`), one reporting `3`. -/
theorem exec_command_exit_code_policy_witness :
    (exec_command { sampleBackend with inspectExitCode := none } "true" none).1 =
      .ok (0, "0\n0\n", "") ∧
    (exec_command { sampleBackend with inspectExitCode := some 3 } "true" none).1 =
      .ok (3, "0\n0\n", "") :=
  ⟨(exec_command_exit_code_policy { sampleBackend with inspectExitCode := none } "true").1 rfl,
   (exec_command_exit_code_policy { sampleBackend with inspectExitCode := some 3 } "true").2 3 rfl⟩

/-- **C10.** `close` only clears the `_connected` flag: the cached container
binding and the playbook pid are unchanged, and the runtime-call trace is
empty — the runtime is never contacted, so the backing container is left
alone. -/
theorem close_only_marks_inactive (s : ConnectionState) :
    close s = ({ s with connected := false }, []) ∧
    (close s).1.container = s.container ∧
    (close s).1.playbook_pid = s.playbook_pid ∧
    (close s).2 = [] :=
  ⟨rfl, rfl, rfl, rfl⟩

/-- **C7.** Decoding the single expected archive member fails whenever the
archive holds zero or two-or-more members; on exactly one member it succeeds
with the correct kind for a regular file or a symlink, and any other kind is
a hard failure. -/
theorem decodeSingleEntry_cases (in_path : String) (members : List TarEntry) :
    (members.length ≠ 1 →
      decodeSingleEntry in_path members =
        .error (.connectionFailure ("Bad members length: " ++ toString members.length))) ∧
    (∀ e : TarEntry, members = [e] →
      (e.kind = .file → decodeSingleEntry in_path members = .ok (.file e.content)) ∧
      (e.kind = .symlink → decodeSingleEntry in_path members = .ok (.symlink e.linkname)) ∧
      (e.kind = .other →
        decodeSingleEntry in_path members =
          .error (.connectionFailure ("Bad member: " ++ in_path)))) := by
  constructor
  · intro h
    simp only [decodeSingleEntry, if_pos h]
  · intro e he
    subst he
    refine ⟨fun hk => ?_, fun hk => ?_, fun hk => ?_⟩ <;>
      simp [decodeSingleEntry, hk]

/-- Witness for C7: the empty archive fails, a single regular file and a
single symlink succeed with their kinds, and a single member of any other
kind fails. -/
theorem decodeSingleEntry_cases_witness :
    decodeSingleEntry "/x" [] =
      .error (.connectionFailure "Bad members length: 0") ∧
    decodeSingleEntry "/x" [sampleFileEntry] = .ok (.file "hello") ∧
    decodeSingleEntry "/x" [sampleSymEntry] = .ok (.symlink "t") ∧
    decodeSingleEntry "/x" [sampleOtherEntry] =
      .error (.connectionFailure "Bad member: /x") :=
  ⟨(decodeSingleEntry_cases "/x" []).1 (by decide),
   ((decodeSingleEntry_cases "/x" [sampleFileEntry]).2 sampleFileEntry rfl).1 rfl,
   ((decodeSingleEntry_cases "/x" [sampleSymEntry]).2 sampleSymEntry rfl).2.1 rfl,
   ((decodeSingleEntry_cases "/x" [sampleOtherEntry]).2 sampleOtherEntry rfl).2.2 rfl⟩

/-- **C4.** `put_file` with a remote path not starting with the path
separator fails with the bad-argument `AnsibleConnectionFailure` before any
runtime call (empty trace); with an absolute remote path but a missing
local file it fails with `AnsibleFileNotFound`; and the two error kinds are
distinct constructors. -/
theorem put_file_precondition_errors (lfs : LocalFs) (be : ExecBackend)
    (cfs : ContainerFs) (putSuccessful : Bool) (in_path out_path : String) :
    (¬ startsWith out_path "/" = true →
      put_file lfs be cfs putSuccessful in_path out_path =
        (.error (.connectionFailure "Only absolute paths are available"), [])) ∧
    (startsWith out_path "/" = true → lfs in_path = none →
      put_file lfs be cfs putSuccessful in_path out_path =
        (.error (.fileNotFound in_path), [])) ∧
    (∀ msg path, PyError.connectionFailure msg ≠ PyError.fileNotFound path) := by
  refine ⟨fun h => ?_, fun h hl => ?_, fun msg path h => ?_⟩
  · simp [put_file, h]
  · simp [put_file, h, hl]
  · cases h

/-- Witness for C4: a relative remote path fails bad-argument with an empty
trace, and a missing local file under an absolute remote path fails
file-not-found. -/
theorem put_file_precondition_errors_witness :
    put_file (fun _ => none) sampleBackend (fun _ => []) true "/home/f" "tmp/x" =
      (.error (.connectionFailure "Only absolute paths are available"), []) ∧
    put_file (fun _ => none) sampleBackend (fun _ => []) true "/home/f" "/tmp/x" =
      (.error (.fileNotFound "/home/f"), []) ∧
    PyError.connectionFailure "Only absolute paths are available" ≠
      PyError.fileNotFound "/home/f" :=
  ⟨(put_file_precondition_errors (fun _ => none) sampleBackend (fun _ => []) true
      "/home/f" "tmp/x").1 (by decide),
   (put_file_precondition_errors (fun _ => none) sampleBackend (fun _ => []) true
      "/home/f" "/tmp/x").2.1 (by decide) rfl,
   (put_file_precondition_errors (fun _ => none) sampleBackend (fun _ => []) true
      "/home/f" "/tmp/x").2.2 _ _⟩

/-- **C5.** Resolving the container binding twice in sequence for the same
(playbook pid, hostname) pair yields the same container and leaves the
runtime inventory unchanged after the first resolution: the first call may
create a labeled container, the second finds and returns it instead of
creating another. -/
theorem container_resolve_idempotent (state : List DContainer)
    (pid hostname image f1 f2 : String) :
    (container_resolve (container_resolve state pid hostname image f1).2
        pid hostname image f2).1 =
      (container_resolve state pid hostname image f1).1 ∧
    (container_resolve (container_resolve state pid hostname image f1).2
        pid hostname image f2).2 =
      (container_resolve state pid hostname image f1).2 := by
  rcases h : list_matching_containers state pid (some hostname) with _ | ⟨c, rest⟩
  · have hmatch : list_matching_containers (state ++
        [{ id := f1,
           labels := [(CONTAINER_PID_LABEL, pid), (CONTAINER_HOSTNAME_LABEL, hostname)],
           image := image }]) pid (some hostname) =
        [{ id := f1,
           labels := [(CONTAINER_PID_LABEL, pid), (CONTAINER_HOSTNAME_LABEL, hostname)],
           image := image }] := by
      unfold list_matching_containers at h ⊢
      rw [List.filter_append, h]
      simp
    simp only [container_resolve, containers_run, h, hmatch]
    exact ⟨trivial, trivial⟩
  · simp only [container_resolve, h]
    exact ⟨trivial, trivial⟩

/-- When every per-container removal succeeds, the cleanup loop removes
every container in list order. -/
theorem cleanupLoop_all_ok (removeResult : String → Except String Unit) :
    ∀ L : List DContainer, (∀ c ∈ L, removeResult c.id = .ok ()) →
      cleanupLoop removeResult L = (L.map DContainer.id, none) := by
  intro L
  induction L with
  | nil => intro _; rfl
  | cons c rest ih =>
    intro h
    have hc := h c (List.mem_cons_self c rest)
    simp [cleanupLoop, hc, ih (fun d hd => h d (List.mem_cons_of_mem c hd))]

/-- When the removal of one container raises, the cleanup loop stops there:
only the containers before it have been removed and the error propagates. -/
theorem cleanupLoop_abort (removeResult : String → Except String Unit) :
    ∀ (pre : List DContainer) (c : DContainer) (post : List DContainer) (e : String),
      (∀ d ∈ pre, removeResult d.id = .ok ()) → removeResult c.id = .error e →
      cleanupLoop removeResult (pre ++ c :: post) = (pre.map DContainer.id, some e) := by
  intro pre
  induction pre with
  | nil =>
    intro c post e _ hc
    simp [cleanupLoop, hc]
  | cons d rest ih =>
    intro c post e hpre hc
    have hd := hpre d (List.mem_cons_self d rest)
    simp [cleanupLoop, hd, ih c post e (fun x hx => hpre x (List.mem_cons_of_mem d hx)) hc]

/-- **C2 counterexample.** With two containers labeled for run identity `7`
and a runtime whose removal of `c1` raises, `cleanup` removes nothing: in
particular the still-labeled container `c2` is not removed, so a failure to
remove one container does abort the removal of the remaining batch. -/
theorem cleanup_abort_counterexample :
    cleanup [exContainer1, exContainer2] exRemove "7" = ([], some "API error") ∧
    exContainer2 ∈ list_matching_containers [exContainer1, exContainer2] "7" none ∧
    "c2" ∉ (cleanup [exContainer1, exContainer2] exRemove "7").1 := by
  refine ⟨by decide, by decide, by decide⟩

/-- **C2 (amended).** `cleanup` force-removes, in listing order, every
container labeled with the run identity regardless of hostname — but the
per-container removals are not independent: when every removal succeeds all
labeled containers are removed, while an exception from one removal
propagates out of the loop and the containers after it are not removed. -/
theorem cleanup_amended_spec (state : List DContainer)
    (removeResult : String → Except String Unit) (pid : String) :
    ((∀ c ∈ list_matching_containers state pid none, removeResult c.id = .ok ()) →
      cleanup state removeResult pid =
        ((list_matching_containers state pid none).map DContainer.id, none)) ∧
    (∀ c ∈ state, c.labels.contains (CONTAINER_PID_LABEL, pid) = true →
      c ∈ list_matching_containers state pid none) ∧
    (∀ (pre : List DContainer) (c : DContainer) (post : List DContainer) (e : String),
      list_matching_containers state pid none = pre ++ c :: post →
      (∀ d ∈ pre, removeResult d.id = .ok ()) → removeResult c.id = .error e →
      cleanup state removeResult pid = (pre.map DContainer.id, some e)) := by
  refine ⟨fun h => cleanupLoop_all_ok removeResult _ h, ?_, ?_⟩
  · intro c hc hl
    have hl2 : (CONTAINER_PID_LABEL, pid) ∈ c.labels := by simpa using hl
    simp [list_matching_containers, List.mem_filter, hc, hl2]
  · intro pre c post e hsplit hpre hc
    unfold cleanup
    rw [hsplit]
    exact cleanupLoop_abort removeResult pre c post e hpre hc

/-- Witness for C2 (amended): with all removals succeeding both containers
of run `7` are removed whatever their hostnames; `c2` carries the pid label
and is listed; and with `c1`'s removal raising, the loop stops before
`c2`. -/
theorem cleanup_amended_spec_witness :
    cleanup [exContainer1, exContainer2] (fun _ => .ok ()) "7" = (["c1", "c2"], none) ∧
    exContainer2 ∈ list_matching_containers [exContainer1, exContainer2] "7" none ∧
    cleanup [exContainer1, exContainer2] exRemove "7" = ([], some "API error") :=
  ⟨(cleanup_amended_spec [exContainer1, exContainer2] (fun _ => .ok ()) "7").1
      (fun _ _ => rfl),
   (cleanup_amended_spec [exContainer1, exContainer2] (fun _ => .ok ()) "7").2.1
      exContainer2 (by decide) (by decide),
   (cleanup_amended_spec [exContainer1, exContainer2] exRemove "7").2.2
      [] exContainer1 [exContainer2] "API error" (by decide)
      (fun d hd => absurd hd (List.not_mem_nil d)) rfl⟩

/-- **C8.** When the decoded member is a symlink, the fetch loop repeats
with the target joined onto the *directory* of the current remote path
(`os.path.join(os.path.split(in_path)[0], member.linkname)`); for a
relative target under a directory with no trailing separator, the resolved
path is that directory, a separator, and the target — not a path relative
to the filesystem root. -/
theorem fetch_file_symlink_relative (cfs : ContainerFs) (fuel : Nat)
    (in_path : String) (visited : List String) (e : TarEntry)
    (hnv : in_path ∉ visited) (hfs : cfs in_path = [e]) (hk : e.kind = .symlink) :
    fetch_file_loop cfs (fuel + 1) in_path visited =
      fetch_file_loop cfs fuel (joinPath (splitPath in_path).1 e.linkname)
        (in_path :: visited) ∧
    (startsWith e.linkname "/" = false → (splitPath in_path).1 ≠ "" →
      endsWith (splitPath in_path).1 "/" = false →
      joinPath (splitPath in_path).1 e.linkname =
        (splitPath in_path).1 ++ "/" ++ e.linkname) := by
  constructor
  · simp [fetch_file_loop, hnv, decodeSingleEntry, hfs, hk]
  · intro h1 h2 h3
    simp [joinPath, h1, h2, h3]

/-- Witness for C8 at `/a/b` with a symlink member targeting `c`: the loop
repeats at `/a/c` (the target joined onto `/a`), not at `/c`. -/
theorem fetch_file_symlink_relative_witness :
    fetch_file_loop exRelFs 1 "/a/b" [] = fetch_file_loop exRelFs 0 "/a/c" ["/a/b"] ∧
    joinPath "/a" "c" = "/a/c" := by
  have h := fetch_file_symlink_relative exRelFs 0 "/a/b" []
    { sampleSymEntry with name := "b", linkname := "c" } (by decide) (by decide) rfl
  exact ⟨h.1, h.2 (by decide) (by decide) (by decide)⟩

/-- Invariant of the symlink chain walk: at step `m` of a chain that first
revisits itself at step `j`, with the visited set holding exactly the paths
of steps before `m`, the loop runs to the revisit and fails with the
symlink-loop error, using `j - m + 1` iterations of fuel. -/
theorem fetch_loop_chain_aux (cfs : ContainerFs) (pathSeq : Nat → String)
    (entrySeq : Nat → TarEntry) (j i : Nat) (hij : i < j)
    (hrevisit : pathSeq j = pathSeq i)
    (hinj : ∀ a b, a < b → b < j → pathSeq a ≠ pathSeq b)
    (hstep : ∀ k, k < j → cfs (pathSeq k) = [entrySeq k] ∧
      (entrySeq k).kind = .symlink ∧
      pathSeq (k + 1) = joinPath (splitPath (pathSeq k)).1 (entrySeq k).linkname) :
    ∀ d m (visited : List String), m + d = j →
      (∀ x, x ∈ visited ↔ ∃ a, a < m ∧ pathSeq a = x) →
      fetch_file_loop cfs (d + 1) (pathSeq m) visited =
        some (.error (.connectionFailure
          ("Found infinite symbolic link loop: " ++ pathSeq j))) := by
  intro d
  induction d with
  | zero =>
    intro m visited hm hvis
    have hmj : m = j := by omega
    subst hmj
    have hmem : pathSeq m ∈ visited :=
      (hvis (pathSeq m)).2 ⟨i, hij, hrevisit.symm⟩
    simp [fetch_file_loop, hmem]
  | succ d ih =>
    intro m visited hm hvis
    have hmj : m < j := by omega
    have hnm : pathSeq m ∉ visited := by
      intro hx
      obtain ⟨a, ha, hae⟩ := (hvis (pathSeq m)).1 hx
      exact hinj a m ha hmj hae
    obtain ⟨hcfs, hkind, hnext⟩ := hstep m hmj
    have hvis2 : ∀ x, x ∈ pathSeq m :: visited ↔ ∃ a, a < m + 1 ∧ pathSeq a = x := by
      intro x
      rw [List.mem_cons, hvis x]
      constructor
      · rintro (h | ⟨a, ha, hax⟩)
        · exact ⟨m, Nat.lt_succ_self m, h.symm⟩
        · exact ⟨a, Nat.lt_succ_of_lt ha, hax⟩
      · rintro ⟨a, ha, hax⟩
        rcases Nat.lt_succ_iff_lt_or_eq.mp ha with h | h
        · exact Or.inr ⟨a, h, hax⟩
        · subst h
          exact Or.inl hax.symm
    have hrec := ih (m + 1) (pathSeq m :: visited) (by omega) hvis2
    calc fetch_file_loop cfs (d + 1 + 1) (pathSeq m) visited
        = fetch_file_loop cfs (d + 1) (pathSeq (m + 1)) (pathSeq m :: visited) := by
          rw [hnext]
          simp [fetch_file_loop, hnm, decodeSingleEntry, hcfs, hkind]
      _ = some (.error (.connectionFailure
            ("Found infinite symbolic link loop: " ++ pathSeq j))) := hrec

/-- **C6.** On a symlink chain `pathSeq 0, pathSeq 1, …` (each step the
target of the previous path's symlink member, joined onto its directory)
whose first revisit of an earlier path happens at step `j`, `fetch_file`
fails with the symlink-loop `AnsibleConnectionFailure` naming the revisited
path — and fuel `j + 1` suffices, so the loop runs at most
(chain length + 1) iterations. -/
theorem fetch_file_symlink_loop_detected (cfs : ContainerFs)
    (out_path : String) (pathSeq : Nat → String) (entrySeq : Nat → TarEntry)
    (j i : Nat) (hout : startsWith out_path "/" = true) (hij : i < j)
    (hrevisit : pathSeq j = pathSeq i)
    (hinj : ∀ a b, a < b → b < j → pathSeq a ≠ pathSeq b)
    (hstep : ∀ k, k < j → cfs (pathSeq k) = [entrySeq k] ∧
      (entrySeq k).kind = .symlink ∧
      pathSeq (k + 1) = joinPath (splitPath (pathSeq k)).1 (entrySeq k).linkname) :
    fetch_file cfs (j + 1) (pathSeq 0) out_path =
      some (.error (.connectionFailure
        ("Found infinite symbolic link loop: " ++ pathSeq j))) := by
  have h0 : ∀ x : String, x ∈ ([] : List String) ↔ ∃ a, a < 0 ∧ pathSeq a = x := by
    intro x
    simp
  have h := fetch_loop_chain_aux cfs pathSeq entrySeq j i hij hrevisit hinj hstep
    j 0 [] (by omega) h0
  simp [fetch_file, hout]
  exact h

/-- The loop witness chain is closed: joining target `a` onto the directory
of `/a` yields `/a` again. -/
theorem exLoop_join : ("/a" : String) = joinPath (splitPath "/a").1 "a" := by
  decide

/-- Witness for C6: `/a` holds a symlink member whose relative target `a`
resolves back to `/a`; the chain revisits itself at step 1, and fuel 2 is
enough for `fetch_file` to report the loop. -/
theorem fetch_file_symlink_loop_detected_witness :
    fetch_file exLoopFs 2 "/a" "/out" =
      some (.error (.connectionFailure "Found infinite symbolic link loop: /a")) :=
  fetch_file_symlink_loop_detected exLoopFs "/out" (fun _ => "/a")
    (fun _ => { sampleSymEntry with name := "a", linkname := "a" }) 1 0
    (by decide) (Nat.zero_lt_one) rfl
    (fun a b hab hb =>
      absurd (Nat.lt_of_lt_of_le hab (Nat.le_of_lt_succ hb)) (Nat.not_lt_zero a))
    (fun _ _ => ⟨rfl, rfl, exLoop_join⟩)

/-- A sample local file with mode `0o644`, owned by a non-root user. -/
def exLocalFile : LocalFile :=
  { content := "hello", mode := 0o644, uid := 1000, gid := 1000,
    uname := "dev", gname := "dev" }

/-- A local filesystem holding `exLocalFile` at `/home/f`. -/
def exLocalFs : LocalFs := fun p =>
  if p = "/home/f" then some exLocalFile else none

/-- **C1.** Round trip: `put_file` of a local file to an absolute remote
path followed by `fetch_file` of that remote path yields the original byte
content, and the transferred member's mode is exactly the owner bits of the
original mode (`mode &&& 0o700`), with every group/other bit
(`0o077`) stripped.  The hypotheses fix the runtime responses: the
ownership-discovery exec exits `0` with parseable `id` output, the archive
upload reports success, and the remote path is a normal absolute path
(splitting and rejoining it is the identity). -/
theorem put_fetch_roundtrip (lfs : LocalFs) (be : ExecBackend)
    (cfs : ContainerFs) (in_path out_path out_path2 : String) (f : LocalFile)
    (u g : Nat)
    (hout : startsWith out_path "/" = true)
    (hin : lfs in_path = some f)
    (hexit : be.inspectExitCode = some 0 ∨ be.inspectExitCode = none)
    (hid : parseIdOutput (be.execStdout.getD "") = some (u, g))
    (hjoin : joinPath (splitPath out_path).1 (splitPath out_path).2 = out_path)
    (hlocal : startsWith out_path2 "/" = true) :
    ∃ cfs2 : ContainerFs,
      (put_file lfs be cfs true in_path out_path).1 = .ok cfs2 ∧
      fetch_file cfs2 1 out_path out_path2 = some (.ok f.content) ∧
      cfs2 out_path = [putArchiveEntry f (splitPath out_path).2 u g] ∧
      (putArchiveEntry f (splitPath out_path).2 u g).mode = f.mode &&& 0o700 ∧
      (f.mode &&& 0o700) &&& 0o077 = 0 := by
  refine ⟨putArchiveFs cfs (splitPath out_path).1
      (putArchiveEntry f (splitPath out_path).2 u g), ?_, ?_, ?_, rfl, ?_⟩
  · rcases hexit with h | h <;>
      simp [put_file, hout, hin, exec_command, h, hid]
  · have hcfs2 : putArchiveFs cfs (splitPath out_path).1
        (putArchiveEntry f (splitPath out_path).2 u g) out_path =
        [putArchiveEntry f (splitPath out_path).2 u g] := by
      simp [putArchiveFs, putArchiveEntry, hjoin]
    have hkind : (putArchiveEntry f (splitPath out_path).2 u g).kind =
        TarKind.file := rfl
    have hcontent : (putArchiveEntry f (splitPath out_path).2 u g).content =
        f.content := rfl
    simp [fetch_file, hlocal, fetch_file_loop, decodeSingleEntry, hcfs2, hkind,
      hcontent]
  · simp [putArchiveFs, putArchiveEntry, hjoin]
  · rw [Nat.and_assoc, show (448 &&& 63 : Nat) = 0 from rfl, Nat.and_zero]

/-- Witness for C1: `/home/f` (mode `0o644`) put to `/tmp/x` against the
sample backend (root ownership discovery) and fetched back to `/tmp/y`
yields `hello` with stored mode `0o600`. -/
theorem put_fetch_roundtrip_witness :
    ∃ cfs2 : ContainerFs,
      (put_file exLocalFs sampleBackend (fun _ => []) true "/home/f" "/tmp/x").1 =
        .ok cfs2 ∧
      fetch_file cfs2 1 "/tmp/x" "/tmp/y" = some (.ok "hello") ∧
      cfs2 "/tmp/x" = [putArchiveEntry exLocalFile "x" 0 0] ∧
      (putArchiveEntry exLocalFile "x" 0 0).mode = 0o600 ∧
      (0o600 : Nat) &&& 0o077 = 0 :=
  put_fetch_roundtrip exLocalFs sampleBackend (fun _ => []) "/home/f" "/tmp/x"
    "/tmp/y" exLocalFile 0 0 (by decide) rfl (Or.inl rfl) (by decide) (by decide)
    (by decide)

end AnsibleDockerCI
